import Mathlib

/-!
Verification development for the black-and-white image colorizer backend
(`backend/app.py` and `backend/model.py`).

The development shallowly embeds the parts of the program that the
specification talks about:

* the shape semantics of the U-shaped network `ColorizationSDAEUNet`
  (`model.py`): every layer of the source (`Conv2d` 3x3 with padding 1 and no
  bias, `BatchNorm2d`, `ReLU`, `MaxPool2d(2)`, `ConvTranspose2d` kernel 2
  stride 2, `F.pad`, `torch.cat`, `Conv2d` 1x1) is modelled by its effect on
  tensor shapes, with `none` standing for the layer raising a runtime size or
  channel-mismatch exception;
* the arithmetic of the Lab normalization constants of `preprocess_image`
  and `lab_denormalize`, over exact rationals;
* the checkpoint-resolution and model-loading block at the top of `app.py`,
  including the `pathlib.PosixPath` rebinding and the exception handlers;
* the state-level semantics of an inference call (`model(L_tensor)` under
  `torch.no_grad()`): parameters, `BatchNorm2d` running statistics and the
  `training` flag, with the numeric kernel of the network abstracted as a
  pure function (the source layers contain no stochastic operation);
* the request-level control flow of the `/colorize` endpoint, at the level
  of image sizes, tensor shapes and raised exceptions.

Machine floats of the source are modelled as exact rationals; tensor shapes
as quadruples of naturals in NCHW order.
-/

/-- Shape of a 4-dimensional tensor, in the NCHW order used by the source. -/
structure TShape where
  n : Nat
  c : Nat
  h : Nat
  w : Nat
deriving DecidableEq

/-- Shape effect of `nn.Conv2d(inCh, outCh, kernel_size=3, padding=1, bias=False)`:
spatial size is preserved (`h + 2*1 - 3 + 1 = h`); PyTorch raises when the
channel count does not match `inCh` or when the computed output size is not
positive, which is modelled by `none`. -/
def conv2d3x3 (inCh outCh : Nat) (s : TShape) : Option TShape :=
  if s.c = inCh ∧ 1 ≤ s.h ∧ 1 ≤ s.w then some (TShape.mk s.n outCh s.h s.w) else none

/-- Shape effect of `ConvBlock(in_ch, out_ch)` (`model.py`): two 3x3
convolutions with padding 1, each followed by `BatchNorm2d` and `ReLU`, which
preserve the shape; the first maps `in_ch` to `out_ch`, the second keeps
`out_ch`. -/
def convBlock (inCh outCh : Nat) (s : TShape) : Option TShape :=
  (conv2d3x3 inCh outCh s).bind (conv2d3x3 outCh outCh)

/-- Shape effect of `nn.MaxPool2d(2)`: output spatial size is `⌊h/2⌋ × ⌊w/2⌋`;
PyTorch raises "Output size is too small" when a pooled dimension would be
zero, which is modelled by `none`. -/
def maxPool2 (s : TShape) : Option TShape :=
  if 1 ≤ s.h / 2 ∧ 1 ≤ s.w / 2 then some (TShape.mk s.n s.c (s.h / 2) (s.w / 2)) else none

/-- Shape effect of `nn.ConvTranspose2d(inCh, outCh, kernel_size=2, stride=2)`:
output spatial size is `(h-1)*2 + 2 = 2*h`; raises on a channel mismatch. -/
def convTranspose2 (inCh outCh : Nat) (s : TShape) : Option TShape :=
  if s.c = inCh ∧ 1 ≤ s.h ∧ 1 ≤ s.w then some (TShape.mk s.n outCh (2 * s.h) (2 * s.w)) else none

/-- The two pad amounts `diff // 2` and `diff - diff // 2` that
`UpBlock.forward` passes to `F.pad` for one spatial dimension, where
`diff = skip_size - x_size`; Python `//` is floor division, hence `Int.fdiv`. -/
def padLR (size target : Nat) : Int × Int :=
  let diff : Int := (target : Int) - (size : Int)
  (diff.fdiv 2, diff - diff.fdiv 2)

/-- Size of one dimension after `F.pad` adds `p.1` entries on one side and
`p.2` on the other (negative amounts crop). -/
def padSize (size : Nat) (p : Int × Int) : Int := (size : Int) + p.1 + p.2

/-- Shape effect of the `F.pad` call in `UpBlock.forward`: both spatial
dimensions of `x` are padded with the split amounts of `padLR` towards the
spatial size of `skip`. -/
def upBlockPad (x skip : TShape) : TShape :=
  TShape.mk x.n x.c
    (padSize x.h (padLR x.h skip.h)).toNat
    (padSize x.w (padLR x.w skip.w)).toNat

/-- Shape effect of `UpBlock(in_ch, out_ch).forward(x, skip)` (`model.py`):
transpose-convolution upsampling, conditional symmetric padding of `x` to the
spatial size of `skip`, channel concatenation `torch.cat([skip, x], dim=1)`
(which raises unless batch and spatial sizes agree), then
`ConvBlock(out_ch * 2, out_ch)`. -/
def upBlock_forward (inCh outCh : Nat) (x skip : TShape) : Option TShape :=
  (convTranspose2 inCh outCh x).bind (fun u =>
    let u2 := if u.h = skip.h ∧ u.w = skip.w then u else upBlockPad u skip
    if skip.n = u2.n ∧ skip.h = u2.h ∧ skip.w = u2.w then
      convBlock (outCh * 2) outCh (TShape.mk u2.n (skip.c + u2.c) u2.h u2.w)
    else none)

/-- Shape effect of `nn.Conv2d(inCh, outCh, kernel_size=1)` (the output head
`out_conv`): spatial size preserved, channels mapped to `outCh`, no
activation applied afterwards. -/
def conv2d1x1 (inCh outCh : Nat) (s : TShape) : Option TShape :=
  if s.c = inCh ∧ 1 ≤ s.h ∧ 1 ≤ s.w then some (TShape.mk s.n outCh s.h s.w) else none

/-- Shape effect of `ColorizationSDAEUNet.forward` (`model.py`) with the
default widths `in_ch = 1`, `out_ch = 2`, `base_ch = 64`: four encoder
stages (`ConvBlock` then `MaxPool2d(2)`), a bottleneck `ConvBlock`, four
decoder `UpBlock`s consuming the cached encoder activations as skips, and a
final 1x1 convolution. `none` models the forward pass raising. -/
def unet_forward (s : TShape) : Option TShape :=
  (convBlock 1 64 s).bind fun e1 =>
  (maxPool2 e1).bind fun p1 =>
  (convBlock 64 128 p1).bind fun e2 =>
  (maxPool2 e2).bind fun p2 =>
  (convBlock 128 256 p2).bind fun e3 =>
  (maxPool2 e3).bind fun p3 =>
  (convBlock 256 512 p3).bind fun e4 =>
  (maxPool2 e4).bind fun p4 =>
  (convBlock 512 1024 p4).bind fun b =>
  (upBlock_forward 1024 512 b e4).bind fun d4 =>
  (upBlock_forward 512 256 d4 e3).bind fun d3 =>
  (upBlock_forward 256 128 d3 e2).bind fun d2 =>
  (upBlock_forward 128 64 d2 e1).bind fun d1 =>
  conv2d1x1 64 2 d1


/-!
Lab normalization constants (`preprocess_image` in `app.py` and
`lab_denormalize` in `model.py`), over exact rationals.
-/

/-- Luminance normalization of `preprocess_image` (`app.py`):
`L_norm = (L / 50.0) - 1.0`. -/
def L_norm (L : ℚ) : ℚ := L / 50 - 1

/-- Luminance denormalization of `lab_denormalize` (`model.py`):
`L_denorm = (L_np + 1.0) * 50.0`. -/
def L_denorm (x : ℚ) : ℚ := (x + 1) * 50

/-- Chrominance denormalization of `lab_denormalize` (`model.py`):
`ab_denorm = ab_np * 128.0`. -/
def abDenorm (v : ℚ) : ℚ := v * 128

/-- Modelled from the spec: the chrominance normalization applied on the
training side is not part of the files under `backend/`; the spec describes
the `ChrominanceTensor` as being in "normalized units (divide-by-128 scale)",
so the normalization is `v / 128`. -/
def abNorm (v : ℚ) : ℚ := v / 128

/-!
Checkpoint format resolution and the model-loading block (`app.py`,
top-level code between the model construction and the route definitions).
-/

/-- A serialized tensor, modelled as its flat list of rational entries. -/
abbrev TensorData := List ℚ

/-- A value stored under a key of a loaded checkpoint object: either a
tensor, or a nested mapping (a state dict) of named tensors. -/
inductive CkptEntry where
  | tensor (t : TensorData)
  | sub (d : List (String × TensorData))
deriving DecidableEq

/-- Result of `torch.load`: a Python dict, modelled as an association list
(first binding of a key wins, as in a dict there is at most one). -/
abbrev CkptDict := List (String × CkptEntry)

/-- Python `key in checkpoint`. -/
def containsKey (c : CkptDict) (k : String) : Bool :=
  c.any (fun kv => kv.1 == k)

/-- Python `checkpoint[key]` (only evaluated under a `containsKey` guard in
the source; out of that domain it is given a junk default). -/
def lookupEntry (c : CkptDict) (k : String) : CkptEntry :=
  match c.find? (fun kv => kv.1 == k) with
  | some kv => kv.2
  | none => CkptEntry.tensor []

/-- The object handed to `model.load_state_dict`: either the mapping found
under a recognized key, or the whole loaded object. -/
inductive LoadTarget where
  | fromKey (e : CkptEntry)
  | whole (c : CkptDict)
deriving DecidableEq

def key_model_state : String := "model_state"

def key_model_state_dict : String := "model_state_dict"

def key_state_dict : String := "state_dict"

/-- The `if "model_state" in checkpoint ... elif ... elif ... else` chain of
`app.py` (lines 40-48) selecting what is passed to `load_state_dict`. -/
def resolveTarget (c : CkptDict) : LoadTarget :=
  if containsKey c key_model_state then LoadTarget.fromKey (lookupEntry c key_model_state)
  else if containsKey c key_model_state_dict then
    LoadTarget.fromKey (lookupEntry c key_model_state_dict)
  else if containsKey c key_state_dict then LoadTarget.fromKey (lookupEntry c key_state_dict)
  else LoadTarget.whole c

/-- Python exceptions that the embedded fragments can raise. -/
inductive PyErr where
  | unidentifiedImage
  | valueError
  | fileNotFound
  | runtimeShape
  | loadError (msg : String)
deriving DecidableEq

def msg_unidentifiedImage : String := "cannot identify image file"

def msg_valueError : String := "height and width must be > 0"

def msg_fileNotFound : String := "No such file or directory: colorization_sdae_unet_best.pth"

def msg_runtimeShape : String := "Output size is too small"

/-- The `str(e)` rendering used when an exception is reported. -/
def pyErrMsg : PyErr → String
  | PyErr.unidentifiedImage => msg_unidentifiedImage
  | PyErr.valueError => msg_valueError
  | PyErr.fileNotFound => msg_fileNotFound
  | PyErr.runtimeShape => msg_runtimeShape
  | PyErr.loadError m => m

/-- The checkpoint file on disk, as the loading block can see it. A present
file carries its deserialized contents `c` together with `fits`: whether
the state dict that `resolveTarget` selects from `c` fits the model's
parameter schema, i.e. whether `model.load_state_dict` (strict by default:
exact key set and tensor shapes) accepts it or raises. That is a fixed
property of the file's contents against the fixed `ColorizationSDAEUNet`
architecture; the embedding does not model per-parameter key sets and
shapes, so it is carried as a field rather than recomputed. -/
inductive CkptFile where
  | missing
  | corrupt
  | present (c : CkptDict) (fits : Bool)

def msg_corrupt : String := "invalid load key"

/-- Semantics of `torch.load(MODEL_PATH, map_location=DEVICE, weights_only=False)`:
raises `FileNotFoundError` when the file is absent, some other exception when
it cannot be deserialized, and returns the loaded object otherwise. -/
def torchLoad : CkptFile → Except PyErr CkptDict
  | CkptFile.missing => Except.error PyErr.fileNotFound
  | CkptFile.corrupt => Except.error (PyErr.loadError msg_corrupt)
  | CkptFile.present c _ => Except.ok c

/-- Whether `model.load_state_dict` accepts the state dict selected from
this checkpoint file (see `CkptFile.present`); irrelevant for files
`torch.load` already rejects. -/
def sdMatches : CkptFile → Bool
  | CkptFile.present _ fits => fits
  | _ => false

/-- Where the module-level name `pathlib.PosixPath` currently points. -/
inductive PathBinding where
  | posixPath
  | windowsPath
deriving DecidableEq

/-- The parameters held by the model object: either the random initialization
of `ColorizationSDAEUNet()` or the tensors copied in by `load_state_dict`. -/
inductive ParamSource where
  | randomInit
  | loaded (t : LoadTarget)
deriving DecidableEq

/-- The state held by the model object across requests: its parameters, the
`BatchNorm2d` running statistics (represented by their concatenated entries;
`nn.BatchNorm2d` initializes running means to zero), and the `nn.Module`
`training` flag, which is `True` on construction and set to `False` only by
`model.eval()`. -/
structure ModelState where
  params : ParamSource
  runningStats : List ℚ
  training : Bool
deriving DecidableEq

/-- `ColorizationSDAEUNet().to(DEVICE)`: freshly constructed model, random
parameters, zero-initialized running statistics, training mode. -/
def initModel : ModelState :=
  ModelState.mk ParamSource.randomInit [0] true

def key_running_mean : String := "running_mean"

/-- Running statistics contained in the tensors handed to `load_state_dict`
(`load_state_dict` copies `running_mean`/`running_var` buffers along with the
weights). -/
def extractRunningStats : LoadTarget → List ℚ
  | LoadTarget.fromKey (CkptEntry.sub d) =>
      (d.filter (fun kv => kv.1.endsWith key_running_mean)).foldr
        (fun kv acc => kv.2 ++ acc) []
  | LoadTarget.fromKey (CkptEntry.tensor _) => []
  | LoadTarget.whole c =>
      (c.foldr (fun kv acc =>
        match kv.2 with
        | CkptEntry.tensor v => if kv.1.endsWith key_running_mean then v ++ acc else acc
        | CkptEntry.sub _ => acc) [])

/-- The process state established by the module-level loading block of
`app.py`: the current binding of `pathlib.PosixPath`, the model object, and
the lines printed to the log. These are the only names the block assigns. -/
structure StartupState where
  pathlibPosixPath : PathBinding
  model : ModelState
  logs : List String
deriving DecidableEq

def warnMissingMsg : String :=
  "WARNING: Model file not found at colorization_sdae_unet_best.pth. Inference will use random weights."

def loadedOkMsg : String :=
  "Model loaded successfully from colorization_sdae_unet_best.pth"

def errLoadHead : String := "ERROR loading model: "

def errLoadMsg (e : PyErr) : String := errLoadHead ++ pyErrMsg e

def msg_stateDictMismatch : String :=
  "Error(s) in loading state_dict for ColorizationSDAEUNet"

/-- The try/except model-loading block of `app.py` (lines 28-55).

The body first saves `temp = pathlib.PosixPath` (which initially names the
`PosixPath` class) and rebinds `pathlib.PosixPath = pathlib.WindowsPath`;
the line restoring the binding to `temp` runs only after `torch.load`
returns, so when `torch.load` raises, control jumps to the handlers with the
binding still on `WindowsPath`. The `except FileNotFoundError` and
`except Exception` handlers catch every exception, print, and fall through,
so the block itself never propagates an exception: every branch is
`Except.ok`. When `torch.load` returns, the binding is restored first; then
the checkpoint keys are resolved by `resolveTarget` and the result is handed
to `model.load_state_dict`. If that strict match succeeds, the parameters
are installed and `model.eval()` clears the training flag; if it raises (a
state dict not fitting the model, `sdMatches f = false`), control jumps to
`except Exception` — after the restore already ran — the error is printed,
`model.eval()` is never reached, and the model object is left exactly as
constructed, as in both `torch.load` failure branches. -/
def loadModelBlock (f : CkptFile) : Except PyErr StartupState :=
  match torchLoad f with
  | Except.error e =>
      if e = PyErr.fileNotFound then
        Except.ok (StartupState.mk PathBinding.windowsPath initModel [warnMissingMsg])
      else
        Except.ok (StartupState.mk PathBinding.windowsPath initModel [errLoadMsg e])
  | Except.ok ckpt =>
      let target := resolveTarget ckpt
      if sdMatches f then
        Except.ok (StartupState.mk PathBinding.posixPath
          (ModelState.mk (ParamSource.loaded target) (extractRunningStats target) false)
          [loadedOkMsg])
      else
        Except.ok (StartupState.mk PathBinding.posixPath initModel
          [errLoadMsg (PyErr.loadError msg_stateDictMismatch)])

/-!
State-level semantics of one inference call `model(L_tensor)` executed under
`torch.no_grad()` (`app.py`, `colorize`, lines 84-88).

The layers of `ColorizationSDAEUNet` are `Conv2d` (no bias), `BatchNorm2d`,
`ReLU`, `MaxPool2d`, `ConvTranspose2d` and `F.pad`/`torch.cat`; none of them
is stochastic (there is no dropout), so the numeric output is a pure
function of the parameters, of the statistics the normalization layers use,
and of the input. That pure kernel is taken as an argument `netApply`, and
the per-channel batch statistics computation as an argument `batchStats`.
What the embedding fixes, following the documented semantics of
`nn.BatchNorm2d`, is the state discipline: in training mode the layer
normalizes with the batch statistics of its input and updates the running
statistics with momentum 0.1 (also under `torch.no_grad()`); in eval mode it
normalizes with the frozen running statistics and updates nothing.
-/

/-- Default `momentum` of `nn.BatchNorm2d`. -/
def bnMomentum : ℚ := 1 / 10

/-- Running-statistics update performed by a training-mode `BatchNorm2d`:
`new = (1 - momentum) * old + momentum * batch`. -/
def updateRunningStats (r b : List ℚ) : List ℚ :=
  List.zipWith (fun m s => (1 - bnMomentum) * m + bnMomentum * s) r b

/-- One call `model(x)`: returns the output and the model state after the
call. `netApply params stats x` is the (pure) numeric network applied with
normalization statistics `stats`; `batchStats x` are the batch statistics of
the activations for input `x`. -/
def model_forward (netApply : ParamSource → List ℚ → List ℚ → List ℚ)
    (batchStats : List ℚ → List ℚ) (m : ModelState) (x : List ℚ) :
    List ℚ × ModelState :=
  if m.training then
    (netApply m.params (batchStats x) x,
     ModelState.mk m.params (updateRunningStats m.runningStats (batchStats x)) m.training)
  else
    (netApply m.params m.runningStats x, m)

/-!
The request pipeline of the `/colorize` endpoint (`app.py`), embedded at the
level of image sizes, tensor shapes and raised exceptions. Pixel values are
not tracked: the claims settled against this part of the embedding concern
sizes, error routing and HTTP statuses only.
-/

/-- A decoded PIL image (after `.convert("RGB")`), characterized by its
size; `Image.size` is `(width, height)`. -/
structure Img where
  width : Nat
  height : Nat
deriving DecidableEq

/-- The body bytes of an upload: either bytes that decode to an image, or
bytes `Image.open` rejects with `UnidentifiedImageError`. -/
inductive ImgBytes where
  | decodable (img : Img)
  | invalid

/-- `img.resize((size.1, size.2), Image.Resampling.LANCZOS)`: returns an
image of exactly the requested size; PIL raises `ValueError` when a
requested dimension is not positive. -/
def resizeImg (size : Nat × Nat) (_img : Img) : Except PyErr Img :=
  if 1 ≤ size.1 ∧ 1 ≤ size.2 then Except.ok (Img.mk size.1 size.2)
  else Except.error PyErr.valueError

def IMAGE_SIZE : Nat := 256

/-- `preprocess_image` (`app.py`): decode the bytes (raising
`UnidentifiedImageError` on undecodable input), record `original_size`,
resize to `IMAGE_SIZE x IMAGE_SIZE`, convert to Lab and slice the L channel
(shape-preserving), then `permute(2, 0, 1).unsqueeze(0)` packaging the
`(h, w, 1)` array as a `(1, 1, h, w)` tensor. Returns the tensor shape and
the original size. -/
def preprocess_image (b : ImgBytes) : Except PyErr (TShape × (Nat × Nat)) :=
  match b with
  | ImgBytes.invalid => Except.error PyErr.unidentifiedImage
  | ImgBytes.decodable img =>
      (resizeImg (IMAGE_SIZE, IMAGE_SIZE) img).map (fun r =>
        (TShape.mk 1 1 r.height r.width, (img.width, img.height)))

/-- Shape of the RGB batch array produced by `lab_denormalize`, in NHWC
order. -/
structure BatchHWC where
  n : Nat
  h : Nat
  w : Nat
  c : Nat
deriving DecidableEq

/-- Shape semantics of `lab_denormalize(L, ab)` (`model.py`):
`np.concatenate([L_denorm, ab_denorm], axis=1)` raises unless the batch and
spatial sizes agree; `np.transpose(lab, (0, 2, 3, 1))` reorders to NHWC;
`cv2.cvtColor(lab_i, cv2.COLOR_LAB2RGB)` requires exactly 3 channels and
preserves the spatial size; `np.stack` of the per-image results needs at
least one image. The denormalization itself and the `[0, 1]` clip do not
change shapes. -/
def lab_denormalize_shape (lsh absh : TShape) : Option BatchHWC :=
  if lsh.n = absh.n ∧ lsh.h = absh.h ∧ lsh.w = absh.w then
    if lsh.c + absh.c = 3 ∧ 1 ≤ lsh.n then some (BatchHWC.mk lsh.n lsh.h lsh.w 3)
    else none
  else none

/-- Losslessly encoded PNG bytes: the header records the image size and a
PNG decoder recovers exactly that size. -/
structure PngData where
  width : Nat
  height : Nat
deriving DecidableEq

/-- `out_img.save(buf, format="PNG")`. -/
def encodePng (i : Img) : PngData := PngData.mk i.width i.height

/-- Decoding the returned PNG bytes (PNG is lossless; size is preserved). -/
def decodePng (p : PngData) : Img := Img.mk p.width p.height

/-- The value produced by the `colorize` route handler: a 200 response with
PNG bytes, or an `HTTPException` with a status code and a detail string. -/
inductive ColorizeResult where
  | response (png : PngData)
  | httpError (status : Nat) (detail : String)
deriving DecidableEq

/-- Character-list version of Python's `str.startswith` test. -/
def beginsChars : List Char → List Char → Bool
  | [], _ => true
  | _ :: _, [] => false
  | p :: ps, c :: cs => p == c && beginsChars ps cs

/-- Python `s.startswith(head)`. -/
def startswith (s head : String) : Bool := beginsChars head.data s.data

def imageMime : String := "image/"

def msg_notImage : String := "File must be an image"

/-- The body of the `try` block of `colorize` (`app.py`, lines 79-102),
propagating any raised exception: preprocess, run the model (a `none` shape
is a raised `RuntimeError`), denormalize, take `rgb_out[0]`,
`Image.fromarray` (an `(h, w, 3)` array becomes a PIL image of size
`(w, h)`), resize back to `original_size`, and encode as PNG. -/
def colorizeBody (b : ImgBytes) : Except PyErr PngData :=
  (preprocess_image b).bind fun pre =>
  (match unet_forward pre.1 with
   | some s => Except.ok s
   | none => Except.error PyErr.runtimeShape).bind fun absh =>
  (match lab_denormalize_shape pre.1 absh with
   | some q => Except.ok q
   | none => Except.error PyErr.runtimeShape).bind fun rgbsh =>
  (resizeImg pre.2 (Img.mk rgbsh.w rgbsh.h)).map encodePng

/-- The `/colorize` route handler (`app.py`, lines 74-107): a content type
not starting with `"image/"` is rejected with an `HTTPException(400)` before
the `try` block; any exception raised inside the `try` block is caught by
`except Exception` and re-raised as `HTTPException(500, detail=str(e))`. -/
def colorize (contentType : String) (b : ImgBytes) : ColorizeResult :=
  if !(startswith contentType imageMime) then ColorizeResult.httpError 400 msg_notImage
  else
    match colorizeBody b with
    | Except.ok png => ColorizeResult.response png
    | Except.error e => ColorizeResult.httpError 500 (pyErrMsg e)

/-- HTTP 4xx: an invalid-input (client) error class. -/
def isClientError (status : Nat) : Bool := 400 ≤ status && status < 500

/-- HTTP 5xx: the server error class. -/
def isServerError (status : Nat) : Bool := 500 ≤ status && status < 600

def mimePng : String := "image/png"

def mimeJpeg : String := "image/jpeg"

def mimeText : String := "text/plain"

def key_epoch : String := "epoch"


/-!
Shape lemmas for the network forward pass.
-/

theorem convBlock_eq (inCh outCh n c h w : Nat) (hc : c = inCh) (hh : 1 ≤ h) (hw : 1 ≤ w) :
    convBlock inCh outCh (TShape.mk n c h w) = some (TShape.mk n outCh h w) := by
  simp [convBlock, conv2d3x3, hc, hh, hw]

theorem maxPool2_eq (n c h w : Nat) (hh : 1 ≤ h / 2) (hw : 1 ≤ w / 2) :
    maxPool2 (TShape.mk n c h w) = some (TShape.mk n c (h / 2) (w / 2)) := by
  simp [maxPool2, hh, hw]

theorem upBlockPad_size (x skip : TShape) :
    upBlockPad x skip = TShape.mk x.n x.c skip.h skip.w := by
  have hh : padSize x.h (padLR x.h skip.h) = (skip.h : Int) := by
    simp only [padSize, padLR]
    omega
  have hw : padSize x.w (padLR x.w skip.w) = (skip.w : Int) := by
    simp only [padSize, padLR]
    omega
  simp [upBlockPad, hh, hw]

theorem upBlock_forward_eq (inCh outCh n hx wx hs ws : Nat)
    (hx1 : 1 ≤ hx) (hw1 : 1 ≤ wx) (hs1 : 1 ≤ hs) (hws1 : 1 ≤ ws) :
    upBlock_forward inCh outCh (TShape.mk n inCh hx wx) (TShape.mk n outCh hs ws)
      = some (TShape.mk n outCh hs ws) := by
  have hup : convTranspose2 inCh outCh (TShape.mk n inCh hx wx)
      = some (TShape.mk n outCh (2 * hx) (2 * wx)) := by
    simp [convTranspose2, hx1, hw1]
  have hcb : convBlock (outCh * 2) outCh (TShape.mk n (outCh + outCh) hs ws)
      = some (TShape.mk n outCh hs ws) := by
    rw [show outCh + outCh = outCh * 2 from by omega]
    exact convBlock_eq (outCh * 2) outCh n (outCh * 2) hs ws rfl hs1 hws1
  simp only [upBlock_forward, hup, Option.some_bind]
  dsimp only
  by_cases hm : 2 * hx = hs ∧ 2 * wx = ws
  · rw [if_pos hm, if_pos ⟨rfl, hm.1.symm, hm.2.symm⟩]
    dsimp only
    rw [hm.1, hm.2]
    exact hcb
  · rw [if_neg hm, upBlockPad_size]
    dsimp only
    rw [if_pos ⟨rfl, rfl, rfl⟩]
    exact hcb

/-- For inputs at least 16 pixels in each spatial dimension, the forward pass
of the network completes and returns a tensor of the same spatial size with
2 channels. -/
theorem unet_forward_ge16 (n h w : Nat) (hh : 16 ≤ h) (hw : 16 ≤ w) :
    unet_forward (TShape.mk n 1 h w) = some (TShape.mk n 2 h w) := by
  have h1 : 1 ≤ h := by omega
  have w1 : 1 ≤ w := by omega
  have h2 : 1 ≤ h / 2 := by omega
  have w2 : 1 ≤ w / 2 := by omega
  have h4 : 1 ≤ h / 2 / 2 := by omega
  have w4 : 1 ≤ w / 2 / 2 := by omega
  have h8 : 1 ≤ h / 2 / 2 / 2 := by omega
  have w8 : 1 ≤ w / 2 / 2 / 2 := by omega
  have h16 : 1 ≤ h / 2 / 2 / 2 / 2 := by omega
  have w16 : 1 ≤ w / 2 / 2 / 2 / 2 := by omega
  simp only [unet_forward]
  rw [convBlock_eq 1 64 n 1 h w rfl h1 w1, Option.some_bind]
  rw [maxPool2_eq n 64 h w h2 w2, Option.some_bind]
  rw [convBlock_eq 64 128 n 64 (h / 2) (w / 2) rfl h2 w2, Option.some_bind]
  rw [maxPool2_eq n 128 (h / 2) (w / 2) h4 w4, Option.some_bind]
  rw [convBlock_eq 128 256 n 128 (h / 2 / 2) (w / 2 / 2) rfl h4 w4, Option.some_bind]
  rw [maxPool2_eq n 256 (h / 2 / 2) (w / 2 / 2) h8 w8, Option.some_bind]
  rw [convBlock_eq 256 512 n 256 (h / 2 / 2 / 2) (w / 2 / 2 / 2) rfl h8 w8, Option.some_bind]
  rw [maxPool2_eq n 512 (h / 2 / 2 / 2) (w / 2 / 2 / 2) h16 w16, Option.some_bind]
  rw [convBlock_eq 512 1024 n 512 (h / 2 / 2 / 2 / 2) (w / 2 / 2 / 2 / 2) rfl h16 w16,
    Option.some_bind]
  rw [upBlock_forward_eq 1024 512 n (h / 2 / 2 / 2 / 2) (w / 2 / 2 / 2 / 2)
    (h / 2 / 2 / 2) (w / 2 / 2 / 2) h16 w16 h8 w8, Option.some_bind]
  rw [upBlock_forward_eq 512 256 n (h / 2 / 2 / 2) (w / 2 / 2 / 2)
    (h / 2 / 2) (w / 2 / 2) h8 w8 h4 w4, Option.some_bind]
  rw [upBlock_forward_eq 256 128 n (h / 2 / 2) (w / 2 / 2)
    (h / 2) (w / 2) h4 w4 h2 w2, Option.some_bind]
  rw [upBlock_forward_eq 128 64 n (h / 2) (w / 2) h w h2 w2 h1 w1,
    Option.some_bind]
  simp [conv2d1x1, h1, w1]

/-!
Claims.
-/

/-- C2: for every L in [0,100], the luminance normalization `(L/50) - 1` of
`preprocess_image` followed by the denormalization `(L_norm + 1) * 50` of
`lab_denormalize` yields L again, exactly in exact arithmetic; likewise for
every chrominance value v in [-128,128], dividing by 128 and multiplying by
128 yields v. -/
theorem c2_normalization_round_trip (L v : ℚ)
    (_h0 : 0 ≤ L) (_h1 : L ≤ 100) (_h2 : -128 ≤ v) (_h3 : v ≤ 128) :
    L_denorm (L_norm L) = L ∧ abDenorm (abNorm v) = v := by
  constructor
  · have hstep : L / 50 - 1 + 1 = L / 50 := by ring
    rw [L_norm, L_denorm, hstep, div_mul_cancel₀]
    norm_num
  · rw [abNorm, abDenorm, div_mul_cancel₀]
    norm_num

/-- Witness for C2 at L = 75 and v = -64. -/
theorem c2_normalization_round_trip_witness :
    (0 : ℚ) ≤ 75 ∧ (75 : ℚ) ≤ 100 ∧ (-128 : ℚ) ≤ -64 ∧ (-64 : ℚ) ≤ 128 ∧
    L_denorm (L_norm 75) = 75 ∧ abDenorm (abNorm (-64)) = -64 :=
  ⟨by norm_num, by norm_num, by norm_num, by norm_num,
   (c2_normalization_round_trip 75 (-64) (by norm_num) (by norm_num) (by norm_num)
     (by norm_num)).1,
   (c2_normalization_round_trip 75 (-64) (by norm_num) (by norm_num) (by norm_num)
     (by norm_num)).2⟩

/-- C4: checkpoint resolution follows the fixed priority order of the
`if/elif/elif/else` chain: `"model_state"` first, then `"model_state_dict"`,
then `"state_dict"`, and otherwise the whole loaded object is passed to
`load_state_dict`. -/
theorem c4_checkpoint_resolution_order (c : CkptDict) :
    (containsKey c key_model_state = true →
      resolveTarget c = LoadTarget.fromKey (lookupEntry c key_model_state))
  ∧ (containsKey c key_model_state = false → containsKey c key_model_state_dict = true →
      resolveTarget c = LoadTarget.fromKey (lookupEntry c key_model_state_dict))
  ∧ (containsKey c key_model_state = false → containsKey c key_model_state_dict = false →
      containsKey c key_state_dict = true →
      resolveTarget c = LoadTarget.fromKey (lookupEntry c key_state_dict))
  ∧ (containsKey c key_model_state = false → containsKey c key_model_state_dict = false →
      containsKey c key_state_dict = false → resolveTarget c = LoadTarget.whole c) := by
  refine ⟨fun h1 => ?_, fun h1 h2 => ?_, fun h1 h2 h3 => ?_, fun h1 h2 h3 => ?_⟩ <;>
    simp [resolveTarget, h1, *]

/-- Witness for C4: one concrete checkpoint for each of the four branches. -/
theorem c4_checkpoint_resolution_order_witness :
    (containsKey [(key_model_state, CkptEntry.sub [])] key_model_state = true
      ∧ resolveTarget [(key_model_state, CkptEntry.sub [])]
          = LoadTarget.fromKey (lookupEntry [(key_model_state, CkptEntry.sub [])] key_model_state))
  ∧ (containsKey [(key_model_state_dict, CkptEntry.sub [])] key_model_state = false
      ∧ resolveTarget [(key_model_state_dict, CkptEntry.sub [])]
          = LoadTarget.fromKey
              (lookupEntry [(key_model_state_dict, CkptEntry.sub [])] key_model_state_dict))
  ∧ (containsKey [(key_state_dict, CkptEntry.sub [])] key_model_state = false
      ∧ resolveTarget [(key_state_dict, CkptEntry.sub [])]
          = LoadTarget.fromKey (lookupEntry [(key_state_dict, CkptEntry.sub [])] key_state_dict))
  ∧ (containsKey [(key_epoch, CkptEntry.tensor [1])] key_state_dict = false
      ∧ resolveTarget [(key_epoch, CkptEntry.tensor [1])]
          = LoadTarget.whole [(key_epoch, CkptEntry.tensor [1])]) :=
  ⟨⟨by decide, (c4_checkpoint_resolution_order _).1 (by decide)⟩,
   ⟨by decide, (c4_checkpoint_resolution_order _).2.1 (by decide) (by decide)⟩,
   ⟨by decide, (c4_checkpoint_resolution_order _).2.2.1 (by decide) (by decide) (by decide)⟩,
   ⟨by decide, (c4_checkpoint_resolution_order _).2.2.2 (by decide) (by decide) (by decide)⟩⟩

/-- C5: two inference calls on the same model with identical parameters and
an identical input tensor produce identical chrominance outputs, whatever
pure numeric kernel and batch-statistics function the layers compute: the
second call (run on the model state left by the first) returns the same
output as the first. The second conjunct records the eval-mode contract: in
eval mode the output is computed from the frozen running statistics and the
model state is not touched, and no value is dropped at random (the output is
a function of parameters, statistics and input only). -/
theorem c5_inference_deterministic
    (netApply : ParamSource → List ℚ → List ℚ → List ℚ)
    (batchStats : List ℚ → List ℚ) (m : ModelState) (x : List ℚ) :
    (model_forward netApply batchStats (model_forward netApply batchStats m x).2 x).1
      = (model_forward netApply batchStats m x).1
    ∧ (m.training = false →
        model_forward netApply batchStats m x = (netApply m.params m.runningStats x, m)) := by
  rcases m with ⟨p, r, t⟩
  cases t <;> simp [model_forward]

/-- Witness for C5 at a concrete eval-mode model state. -/
theorem c5_inference_deterministic_witness :
    (ModelState.mk ParamSource.randomInit [0] false).training = false
  ∧ model_forward (fun _ _ x => x) (fun x => x)
      (ModelState.mk ParamSource.randomInit [0] false) [2]
      = ([2], ModelState.mk ParamSource.randomInit [0] false) :=
  ⟨rfl, (c5_inference_deterministic (fun _ _ x => x) (fun x => x)
      (ModelState.mk ParamSource.randomInit [0] false) [2]).2 rfl⟩

/-- C3 counterexample: started with a missing checkpoint file, the loading
block terminates normally, but the resulting process state is exactly the
rebound path class, the model object bit-identical to the freshly
constructed `initModel` (random parameters, zero running statistics, still
in training mode), and one printed warning line. The block assigns no other
name: no "model loaded" status flag is set anywhere a caller could check —
the only record of the failure is the log text, contradicting the claim
that the parameters are left in an explicitly flagged uninitialized state. -/
theorem c3_no_status_flag_counterexample :
    loadModelBlock CkptFile.missing
      = Except.ok (StartupState.mk PathBinding.windowsPath initModel [warnMissingMsg])
    ∧ initModel = ModelState.mk ParamSource.randomInit [0] true :=
  ⟨rfl, rfl⟩

/-- C3 (amended): if the checkpoint file is absent, the loading step does
not raise (the `FileNotFoundError` is caught, a warning is printed and the
block returns normally), the model is left exactly as freshly constructed —
in particular still in training mode, since `model.eval()` is skipped — and
the forward pass still runs without error on the `256 x 256` input the
endpoint feeds it; no "model loaded" status flag is exposed. -/
theorem c3_degrade_not_crash :
    loadModelBlock CkptFile.missing
      = Except.ok (StartupState.mk PathBinding.windowsPath initModel [warnMissingMsg])
    ∧ initModel.training = true
    ∧ (unet_forward (TShape.mk 1 1 IMAGE_SIZE IMAGE_SIZE)).isSome = true := by
  refine ⟨rfl, rfl, ?_⟩
  rw [show IMAGE_SIZE = 256 from rfl, unet_forward_ge16 1 256 256 (by norm_num) (by norm_num)]
  rfl

/-- C10: the model-loading block rebinds `pathlib.PosixPath` to
`pathlib.WindowsPath` before `torch.load`, and the line restoring the
original binding runs only when `torch.load` returns; when the checkpoint
file is absent, `torch.load` raises `FileNotFoundError`, the handler takes
over, and the block ends with `pathlib.PosixPath` still bound to
`WindowsPath` — not its original value. -/
theorem c10_posixpath_not_restored :
    loadModelBlock CkptFile.missing
      = Except.ok (StartupState.mk PathBinding.windowsPath initModel [warnMissingMsg])
    ∧ PathBinding.windowsPath ≠ PathBinding.posixPath :=
  ⟨rfl, by decide⟩

/-- C6 counterexample: after a startup with a missing checkpoint file the
model is still in training mode (`model.eval()` is skipped by the exception
handler), so an inference call updates the `BatchNorm2d` running statistics
— model-held state is mutated by the call, contradicting the claim. The
kernel and batch statistics are instantiated concretely (identity), input
`[1]`: the stored running mean moves from 0 to 1/10. -/
theorem c6_running_stats_mutated_counterexample :
    loadModelBlock CkptFile.missing
      = Except.ok (StartupState.mk PathBinding.windowsPath initModel [warnMissingMsg])
    ∧ (model_forward (fun _ _ x => x) (fun x => x) initModel [1]).2.runningStats
        ≠ initModel.runningStats := by
  refine ⟨rfl, ?_⟩
  simp [model_forward, initModel, updateRunningStats, bnMomentum]

/-- C6 (amended): an inference call never mutates the parameters or the
training flag, for any pure kernel; when the model is in eval mode the call
leaves the entire model state unchanged. Eval mode is the state established
exactly when the startup load fully succeeded: the fourth conjunct shows
that a present checkpoint whose resolved state dict fits the model yields a
loaded eval-mode model, and the fifth that a present checkpoint whose state
dict `load_state_dict` rejects leaves the model as freshly constructed —
still in training mode, since `model.eval()` is skipped by the exception
handler. (In training mode the call updates the normalization running
statistics; see the counterexample.) -/
theorem c6_parameters_frame
    (netApply : ParamSource → List ℚ → List ℚ → List ℚ)
    (batchStats : List ℚ → List ℚ) (m : ModelState) (x : List ℚ) (c : CkptDict) :
    (model_forward netApply batchStats m x).2.params = m.params
  ∧ (model_forward netApply batchStats m x).2.training = m.training
  ∧ (m.training = false → (model_forward netApply batchStats m x).2 = m)
  ∧ loadModelBlock (CkptFile.present c true)
      = Except.ok (StartupState.mk PathBinding.posixPath
          (ModelState.mk (ParamSource.loaded (resolveTarget c))
            (extractRunningStats (resolveTarget c)) false)
          [loadedOkMsg])
  ∧ loadModelBlock (CkptFile.present c false)
      = Except.ok (StartupState.mk PathBinding.posixPath initModel
          [errLoadMsg (PyErr.loadError msg_stateDictMismatch)]) := by
  refine ⟨?_, ?_, ?_, rfl, rfl⟩ <;> rcases m with ⟨p, r, t⟩ <;> cases t <;> simp [model_forward]

/-- Witness for C6 at a concrete eval-mode model state and checkpoint. -/
theorem c6_parameters_frame_witness :
    (ModelState.mk (ParamSource.loaded (LoadTarget.whole [])) [0] false).training = false
  ∧ (model_forward (fun _ _ x => x) (fun x => x)
      (ModelState.mk (ParamSource.loaded (LoadTarget.whole [])) [0] false) [3]).2
      = ModelState.mk (ParamSource.loaded (LoadTarget.whole [])) [0] false :=
  ⟨rfl, (c6_parameters_frame (fun _ _ x => x) (fun x => x)
      (ModelState.mk (ParamSource.loaded (LoadTarget.whole [])) [0] false) [3] []).2.2.1 rfl⟩

/-- C8 counterexample: 8 is not evenly divisible by 16, yet the forward
pass on a `(1, 1, 8, 8)` input does not complete: the bottleneck pooling
computes a zero output size (`8 -> 4 -> 2 -> 1 -> 0`) and PyTorch raises,
contradicting the claim that any input resolution not divisible by 16 runs
to completion. -/
theorem c8_small_input_counterexample :
    8 % 16 ≠ 0 ∧ unet_forward (TShape.mk 1 1 8 8) = none :=
  ⟨by decide, by decide⟩

/-- C8 (amended): in every decoder stage, whenever the upsampled tensor's
spatial size differs from the cached skip tensor's size, the `F.pad` call
(with the symmetric `diff // 2` / `diff - diff // 2` split) resizes it to
exactly the skip tensor's spatial size, leaving batch and channel
dimensions alone; consequently the forward pass completes on every input
with both spatial dimensions at least 16 — in particular on resolutions
that are not multiples of 16 — while inputs smaller than 16 in either
dimension fail in pooling, before any skip concatenation. -/
theorem c8_decoder_padding (u skip : TShape) (n h w : Nat)
    (_hmis : u.h ≠ skip.h ∨ u.w ≠ skip.w) (hh : 16 ≤ h) (hw : 16 ≤ w) :
    ((upBlockPad u skip).h = skip.h ∧ (upBlockPad u skip).w = skip.w
      ∧ (upBlockPad u skip).n = u.n ∧ (upBlockPad u skip).c = u.c)
    ∧ (unet_forward (TShape.mk n 1 h w)).isSome = true := by
  constructor
  · rw [upBlockPad_size]
    exact ⟨rfl, rfl, rfl, rfl⟩
  · rw [unet_forward_ge16 n h w hh hw]
    rfl

/-- Witness for C8: a mismatched pair (upsampled 2x2 against a 3x3 skip,
as arises from pooling an odd size) and a 24x40 input, neither dimension a
multiple of 16. -/
theorem c8_decoder_padding_witness :
    ((TShape.mk 1 512 2 2).h ≠ (TShape.mk 1 512 3 3).h
        ∨ (TShape.mk 1 512 2 2).w ≠ (TShape.mk 1 512 3 3).w)
  ∧ 16 ≤ 24 ∧ 16 ≤ 40
  ∧ (((upBlockPad (TShape.mk 1 512 2 2) (TShape.mk 1 512 3 3)).h = 3
      ∧ (upBlockPad (TShape.mk 1 512 2 2) (TShape.mk 1 512 3 3)).w = 3
      ∧ (upBlockPad (TShape.mk 1 512 2 2) (TShape.mk 1 512 3 3)).n = 1
      ∧ (upBlockPad (TShape.mk 1 512 2 2) (TShape.mk 1 512 3 3)).c = 512)
    ∧ (unet_forward (TShape.mk 1 1 24 40)).isSome = true) :=
  ⟨Or.inl (by decide), by norm_num, by norm_num,
   c8_decoder_padding (TShape.mk 1 512 2 2) (TShape.mk 1 512 3 3) 1 24 40
     (Or.inl (by decide)) (by norm_num) (by norm_num)⟩

/-- C9 counterexample: on a `(2, 1, 4, 4)` input tensor the forward pass
raises (the third pooling would produce a zero size), so it does not return
a tensor at all — in particular not one of shape `(2, 2, 4, 4)` —
contradicting the claim's quantification over every input shape. -/
theorem c9_small_input_counterexample :
    unet_forward (TShape.mk 2 1 4 4) = none
    ∧ unet_forward (TShape.mk 2 1 4 4) ≠ some (TShape.mk 2 2 4 4) :=
  ⟨by decide, by decide⟩

/-- C9 (amended): for every input luminance tensor of shape `(N, 1, H, W)`
with `H >= 16` and `W >= 16`, the forward pass returns a tensor of shape
`(N, 2, H, W)`: same spatial resolution, exactly 2 channels, produced by the
final 1x1 convolution `out_conv` with no activation after it. -/
theorem c9_forward_shape (n h w : Nat) (hh : 16 ≤ h) (hw : 16 ≤ w) :
    unet_forward (TShape.mk n 1 h w) = some (TShape.mk n 2 h w) :=
  unet_forward_ge16 n h w hh hw

/-- Witness for C9 at batch 3 and spatial size 17x31 (not multiples of 16). -/
theorem c9_forward_shape_witness :
    16 ≤ 17 ∧ 16 ≤ 31
    ∧ unet_forward (TShape.mk 3 1 17 31) = some (TShape.mk 3 2 17 31) :=
  ⟨by norm_num, by norm_num, c9_forward_shape 3 17 31 (by norm_num) (by norm_num)⟩

/-- C1: for every decodable input image of size `(W, H)` (with positive
dimensions, as any decodable image has) submitted with an image content
type, the endpoint runs the whole pipeline — preprocess to a
`(1, 1, 256, 256)` tensor, model forward to `(1, 2, 256, 256)`,
denormalize, resize back to `original_size`, PNG-encode — and the returned
PNG bytes decode to an image of size exactly `(W, H)`, whether or not W and
H are multiples of 16 (the network only ever sees the fixed 256x256
resolution). -/
theorem c1_shape_invariance (ct : String) (w h : Nat)
    (hct : startswith ct imageMime = true) (hw : 1 ≤ w) (hh : 1 ≤ h) :
    colorize ct (ImgBytes.decodable (Img.mk w h)) = ColorizeResult.response (PngData.mk w h)
    ∧ decodePng (PngData.mk w h) = Img.mk w h := by
  refine ⟨?_, rfl⟩
  have hpre : preprocess_image (ImgBytes.decodable (Img.mk w h))
      = Except.ok (TShape.mk 1 1 256 256, (w, h)) := by
    simp [preprocess_image, resizeImg, IMAGE_SIZE, Except.map]
  have hforward : unet_forward (TShape.mk 1 1 256 256) = some (TShape.mk 1 2 256 256) :=
    unet_forward_ge16 1 256 256 (by norm_num) (by norm_num)
  have hlab : lab_denormalize_shape (TShape.mk 1 1 256 256) (TShape.mk 1 2 256 256)
      = some (BatchHWC.mk 1 256 256 3) := by decide
  have hres : resizeImg (w, h) (Img.mk 256 256) = Except.ok (Img.mk w h) := by
    simp [resizeImg, hw, hh]
  have hbody : colorizeBody (ImgBytes.decodable (Img.mk w h)) = Except.ok (PngData.mk w h) := by
    simp [colorizeBody, hpre, hforward, hlab, hres, encodePng, Except.bind, Except.map]
  simp [colorize, hct, hbody]

/-- Witness for C1 at content type `image/jpeg` and a 17x33 image (neither
dimension a multiple of 16). -/
theorem c1_shape_invariance_witness :
    startswith mimeJpeg imageMime = true ∧ 1 ≤ 17 ∧ 1 ≤ 33
  ∧ colorize mimeJpeg (ImgBytes.decodable (Img.mk 17 33))
      = ColorizeResult.response (PngData.mk 17 33)
  ∧ decodePng (PngData.mk 17 33) = Img.mk 17 33 :=
  ⟨rfl, by norm_num, by norm_num,
   (c1_shape_invariance mimeJpeg 17 33 rfl (by norm_num) (by norm_num)).1,
   (c1_shape_invariance mimeJpeg 17 33 rfl (by norm_num) (by norm_num)).2⟩

/-- C7 counterexample: a request with content type `image/png` whose bytes
are not a decodable image is answered with `HTTPException(500, ...)` — the
`UnidentifiedImageError` raised inside the `try` block of the handler is
caught by `except Exception` and re-raised as a generic 500 — which is a
server error, not the invalid-input (client) error the claim requires. -/
theorem c7_decode_error_counterexample :
    colorize mimePng ImgBytes.invalid
      = ColorizeResult.httpError 500 (pyErrMsg PyErr.unidentifiedImage)
    ∧ isClientError 500 = false ∧ isServerError 500 = true :=
  ⟨rfl, by decide, by decide⟩

/-- C7 (amended): when the submitted bytes are not a decodable image the
request fails with the decode error surfaced as a generic server error
(HTTP 500 carrying the exception text), like every other failure inside the
handler's `try` block; the only client error the endpoint produces is the
400 for a content type that does not start with `image/`. No distinct
`UnsupportedFormat` error exists in the code. -/
theorem c7_error_routing (ct ct2 : String) (b : ImgBytes)
    (h1 : startswith ct imageMime = true) (h2 : startswith ct2 imageMime = false) :
    colorize ct ImgBytes.invalid
      = ColorizeResult.httpError 500 (pyErrMsg PyErr.unidentifiedImage)
    ∧ isServerError 500 = true
    ∧ colorize ct2 b = ColorizeResult.httpError 400 msg_notImage
    ∧ isClientError 400 = true := by
  refine ⟨?_, by decide, ?_, by decide⟩
  · simp [colorize, h1, colorizeBody, preprocess_image, Except.bind]
  · simp [colorize, h2]

/-- Witness for C7 at content types `image/png` and `text/plain`. -/
theorem c7_error_routing_witness :
    startswith mimePng imageMime = true ∧ startswith mimeText imageMime = false
  ∧ colorize mimePng ImgBytes.invalid
      = ColorizeResult.httpError 500 (pyErrMsg PyErr.unidentifiedImage)
  ∧ colorize mimeText (ImgBytes.decodable (Img.mk 1 1))
      = ColorizeResult.httpError 400 msg_notImage :=
  ⟨rfl, rfl,
   (c7_error_routing mimePng mimeText (ImgBytes.decodable (Img.mk 1 1)) rfl rfl).1,
   (c7_error_routing mimePng mimeText (ImgBytes.decodable (Img.mk 1 1)) rfl rfl).2.2.1⟩
